import Mathlib

/-!
Verification development for a networked key-value store with a write-ahead
log (WAL).  The definitions below are a shallow embedding of the C++ sources:

  * src/src/storage/wal.cpp        (WALRecord serialize/deserialize, WriteAheadLog)
  * src/src/core/persistent_database.cpp (PersistentTransaction, PersistentDatabase)
  * src/src/network/protocol.cpp   (Message serialize/deserialize)
  * src/src/network/server.cpp     (ConnectionHandler::process_request_sync)

Byte strings (std::string, std::vector<uint8_t>) are lists of naturals; fixed
width machine integers are naturals, with the width made explicit where a cast
or memcpy truncates.
-/

/-- Byte strings: keys, values, file contents and wire buffers. -/
abbrev Bytes := List Nat

/-- Little-endian encoding of a natural into `w` bytes, as memcpy of a
w-byte unsigned integer does: byte i is n / 256^i % 256 (high bits beyond
the width are dropped). -/
def leBytes : Nat → Nat → Bytes
  | 0, _ => []
  | w + 1, n => n % 256 :: leBytes w (n / 256)

/-- Recombine little-endian bytes into a natural, as memcpy into an
unsigned integer does. -/
def fromLE : Bytes → Nat
  | [] => 0
  | b :: bs => b + 256 * fromLE bs

/-! ## WAL records (src/include/storage/wal.h, src/src/storage/wal.cpp) -/

/-- WAL record type tags (enum WALRecordType, underlying uint8_t).
PUT = 1, DELETE = 2, COMMIT = 3, CHECKPOINT = 4.  The deserializer keeps the
raw byte, as the C++ static_cast does, so the field is a plain natural. -/
def WALRecordType.PUT : Nat := 1

def WALRecordType.DELETE : Nat := 2

def WALRecordType.COMMIT : Nat := 3

def WALRecordType.CHECKPOINT : Nat := 4

/-- struct WALRecord: type, timestamp (uint64), key_length (uint32),
value_length (uint32), key, value, transaction_id (uint64). -/
structure WALRecord where
  type : Nat
  timestamp : Nat
  key_length : Nat
  value_length : Nat
  key : Bytes
  value : Bytes
  transaction_id : Nat
deriving DecidableEq, Repr

/-- WALRecord::serialize: 1 type byte, 8 timestamp bytes LE, 8 transaction_id
bytes LE, 4 key_length bytes LE, 4 value_length bytes LE, then key and value
payloads. -/
def WALRecord.serialize (r : WALRecord) : Bytes :=
  [r.type % 256] ++ leBytes 8 r.timestamp ++ leBytes 8 r.transaction_id ++
    leBytes 4 r.key_length ++ leBytes 4 r.value_length ++ r.key ++ r.value

/-- WALRecord::deserialize: requires at least the 25-byte fixed header, reads
the fields, requires the buffer to hold key_length + value_length payload
bytes, then slices the key and the value. -/
def WALRecord.deserialize (data : Bytes) : Except String WALRecord :=
  if data.length < 25 then .error "Invalid WAL record: too short"
  else
    let t := data.headD 0
    let timestamp := fromLE ((data.drop 1).take 8)
    let transaction_id := fromLE ((data.drop 9).take 8)
    let key_length := fromLE ((data.drop 17).take 4)
    let value_length := fromLE ((data.drop 21).take 4)
    if data.length < 25 + key_length + value_length then
      .error "Invalid WAL record: incomplete data"
    else
      .ok { type := t, timestamp, key_length, value_length,
            key := (data.drop 25).take key_length,
            value := (data.drop (25 + key_length)).take value_length,
            transaction_id }

/-- Well-formedness of an in-memory WALRecord: the fixed-width fields are in
machine range, the length fields match the payloads (every record the live
code builds satisfies this), and the serialized record fits the 1 MiB frame
limit enforced by read_all_records. -/
def WALRecord.wf (r : WALRecord) : Prop :=
  r.type < 256 ∧ r.timestamp < 2 ^ 64 ∧ r.transaction_id < 2 ^ 64 ∧
  r.key_length = r.key.length ∧ r.value_length = r.value.length ∧
  r.serialize.length ≤ 1048576

instance (r : WALRecord) : Decidable r.wf := by
  unfold WALRecord.wf
  infer_instance

/-! ## Reading a WAL file (WriteAheadLog::read_all_records, wal.cpp 139-195) -/

/-- One framed record as WriteAheadLog::write_record_to_file lays it out:
a 4-byte little-endian length prefix of the serialized record, then the
serialized record itself. -/
def walFrame (r : WALRecord) : Bytes :=
  leBytes 4 r.serialize.length ++ r.serialize

/-- The while loop of read_all_records, with an explicit iteration bound.
Each pass: read the 4-byte size prefix (a short read breaks the loop), break
if the declared size exceeds 1 MiB, read exactly that many payload bytes (a
short read breaks), deserialize (a failure breaks), and continue after the
consumed bytes.  Every pass consumes at least 4 bytes, so fuel equal to the
buffer length bounds the iteration count. -/
def readLoop : Nat → Bytes → List WALRecord
  | 0, _ => []
  | fuel + 1, bytes =>
    if bytes.length < 4 then []
    else
      let record_size := fromLE (bytes.take 4)
      if record_size > 1048576 then []
      else
        let rest := bytes.drop 4
        if rest.length < record_size then []
        else
          match WALRecord.deserialize (rest.take record_size) with
          | .ok r => r :: readLoop fuel (rest.drop record_size)
          | .error _ => []

/-- WriteAheadLog::read_all_records on the contents of the current log file.
It never raises: every malformed, short or oversized record simply ends the
scan. -/
def read_all_records (bytes : Bytes) : List WALRecord :=
  readLoop bytes.length bytes

/-- A crash-torn tail: either a proper prefix of a well-formed frame (the
crash cut a record mid-write, including the clean case of no tail at all), or
a frame whose 4-byte length prefix declares more than 1 MiB. -/
def tornTail (t : Bytes) : Prop :=
  (∃ r d, r.wf ∧ t ++ d = walFrame r ∧ d ≠ []) ∨
  (∃ sz junk, 1048576 < sz ∧ sz < 2 ^ 32 ∧ t = leBytes 4 sz ++ junk)

/-! ## The in-memory KV store (std::unordered_map<std::string, std::string>)

Modelled as an association list with unique keys: lookup finds the unique
entry, operator[] replaces in place or appends a fresh entry, erase removes
the entry.  The list order stands for the container's unspecified iteration
order. -/

abbrev KVStore := List (Bytes × Bytes)

/-- data_.find(k): the value stored at k, if any. -/
def kvFind : KVStore → Bytes → Option Bytes
  | [], _ => none
  | (k2, v) :: rest, k => if k2 = k then some v else kvFind rest k

/-- data_[k] = v: replace the entry in place if the key exists, else add it. -/
def kvInsert : KVStore → Bytes → Bytes → KVStore
  | [], k, v => [(k, v)]
  | (k2, v2) :: rest, k, v =>
    if k2 = k then (k2, v) :: rest else (k2, v2) :: kvInsert rest k v

/-- data_.erase(k): remove the entry for k, a no-op when it is absent. -/
def kvErase : KVStore → Bytes → KVStore
  | [], _ => []
  | (k2, v2) :: rest, k => if k2 = k then rest else (k2, v2) :: kvErase rest k

/-! ## WAL appends and the transaction operations
(PersistentTransaction, persistent_database.cpp 10-111) -/

/-- Environment for one WAL append: whether the file write succeeds, the
wall-clock timestamp get_current_timestamp would return, and the bytes a
failed write leaves in the file (the log is in an unspecified partial state
on disk after an append failure). -/
structure WalEnv where
  ok : Bool
  now : Nat
  junk : Bytes

/-- append_record assigns timestamp = now if the record carries timestamp 0. -/
def fillTimestamp (r : WALRecord) (now : Nat) : WALRecord :=
  if r.timestamp = 0 then { r with timestamp := now } else r

/-- WriteAheadLog::append_record on the bytes of the current log file: fill
the timestamp, write the length-prefixed frame and report success; on a write
failure report false with the file extended by whatever the partial write
left behind. -/
def append_record (file : Bytes) (r : WALRecord) (e : WalEnv) : Bytes × Bool :=
  if e.ok then (file ++ walFrame (fillTimestamp r e.now), true)
  else (file ++ e.junk, false)

/-- enum OperationResult (core/database.h). -/
inductive OperationResult where
  | success
  | keyNotFound
  | keyExists
  | invalidTransaction
  | systemError
deriving DecidableEq, Repr

/-- The shared state a PersistentTransaction mutates: the in-memory map and
the bytes of the current WAL log file. -/
structure DBState where
  data : KVStore
  wal : Bytes
deriving DecidableEq, Repr

/-- The PUT record PersistentTransaction::put builds: key, value, their
lengths, the transaction id, and a zero timestamp for append_record to fill. -/
def mkPutRecord (id : Nat) (k v : Bytes) : WALRecord :=
  { type := WALRecordType.PUT, timestamp := 0, key_length := k.length,
    value_length := v.length, key := k, value := v, transaction_id := id }

/-- The DELETE record PersistentTransaction::del builds (value left empty). -/
def mkDeleteRecord (id : Nat) (k : Bytes) : WALRecord :=
  { type := WALRecordType.DELETE, timestamp := 0, key_length := k.length,
    value_length := 0, key := k, value := [], transaction_id := id }

/-- The COMMIT record PersistentTransaction::commit builds. -/
def mkCommitRecord (id : Nat) : WALRecord :=
  { type := WALRecordType.COMMIT, timestamp := 0, key_length := 0,
    value_length := 0, key := [], value := [], transaction_id := id }

/-- PersistentTransaction::get: the stored value, or the empty string when
the key is absent (the code conflates the two). -/
def PersistentTransaction.get (data : KVStore) (k : Bytes) : Bytes :=
  (kvFind data k).getD []

/-- PersistentTransaction::put: append the PUT record to the WAL; only if the
append succeeds update the map; on append failure return SYSTEM_ERROR with
the map untouched. -/
def PersistentTransaction.put (id : Nat) (s : DBState) (k v : Bytes) (e : WalEnv) :
    DBState × OperationResult :=
  let a := append_record s.wal (mkPutRecord id k v) e
  if a.2 then ({ data := kvInsert s.data k v, wal := a.1 }, .success)
  else ({ data := s.data, wal := a.1 }, .systemError)

/-- PersistentTransaction::del: KEY_NOT_FOUND without logging when the key is
absent; otherwise append the DELETE record and, only if the append succeeds,
remove the key; on append failure return SYSTEM_ERROR with the map untouched. -/
def PersistentTransaction.del (id : Nat) (s : DBState) (k : Bytes) (e : WalEnv) :
    DBState × OperationResult :=
  match kvFind s.data k with
  | none => (s, .keyNotFound)
  | some _ =>
    let a := append_record s.wal (mkDeleteRecord id k) e
    if a.2 then ({ data := kvErase s.data k, wal := a.1 }, .success)
    else ({ data := s.data, wal := a.1 }, .systemError)

/-- PersistentTransaction::commit: append a COMMIT record; SYSTEM_ERROR if
the append fails.  The map is never touched and no state transition happens. -/
def PersistentTransaction.commit (id : Nat) (s : DBState) (e : WalEnv) :
    DBState × OperationResult :=
  let a := append_record s.wal (mkCommitRecord id) e
  ({ data := s.data, wal := a.1 }, if a.2 then .success else .systemError)

/-- PersistentTransaction::rollback: prints a line and changes nothing. -/
def PersistentTransaction.rollback (s : DBState) : DBState := s

/-! ## The engine (PersistentDatabase, persistent_database.cpp 113-243) -/

/-- The switch of PersistentDatabase::recover_from_wal over one replayed
record: PUT stores, DELETE erases, COMMIT and CHECKPOINT fall through with no
action (and so does any other type byte, there being no matching case). -/
def applyWALRecord (m : KVStore) (r : WALRecord) : KVStore :=
  if r.type = WALRecordType.PUT then kvInsert m r.key r.value
  else if r.type = WALRecordType.DELETE then kvErase m r.key
  else if r.type = WALRecordType.COMMIT then m
  else if r.type = WALRecordType.CHECKPOINT then m
  else m

/-- recover_from_wal: replay every record read_all_records returned, in
order, into the fresh (empty) map. -/
def recover_from_wal (file : Bytes) : KVStore :=
  (read_all_records file).foldl applyWALRecord []

/-- The engine: the WAL directory (file contents per timestamp name), the
name of the current log file, the map, the transaction counter and the
initialized flag. -/
structure Engine where
  files : Nat → Bytes
  current : Nat
  data : KVStore
  next_transaction_id : Nat
  initialized : Bool

/-- Write one file of the WAL directory. -/
def updateFile (files : Nat → Bytes) (name : Nat) (contents : Bytes) : Nat → Bytes :=
  fun n => if n = name then contents else files n

/-- PersistentDatabase::initialize: the WriteAheadLog constructor opens a new
log file named by the current millisecond timestamp (appending to it if a
file of that name already exists, hence the directory contents are
unchanged), and recover_from_wal replays the records of that current file
into the fresh map. -/
def PersistentDatabase.initEngine (files : Nat → Bytes) (now : Nat) : Engine :=
  { files, current := now, data := recover_from_wal (files now),
    next_transaction_id := 1, initialized := true }

/-- PersistentDatabase::shutdown: when initialized, append a CHECKPOINT
record carrying the checkpoint label (data_dir/checkpoint.db) to the current
log file and clear the initialized flag. -/
def PersistentDatabase.shutdown (eng : Engine) (label : Bytes) (e : WalEnv) : Engine :=
  if eng.initialized then
    let record : WALRecord :=
      { type := WALRecordType.CHECKPOINT, timestamp := e.now,
        key_length := label.length, value_length := 0, key := label,
        value := [], transaction_id := 0 }
    let contents :=
      if e.ok then eng.files eng.current ++ walFrame record
      else eng.files eng.current ++ e.junk
    { eng with files := updateFile eng.files eng.current contents, initialized := false }
  else eng

/-- The DBState a transaction begun on the engine sees. -/
def Engine.dbState (eng : Engine) : DBState :=
  { data := eng.data, wal := eng.files eng.current }

/-- Write a transaction's final DBState back into the engine. -/
def Engine.withDB (eng : Engine) (s : DBState) : Engine :=
  { eng with data := s.data, files := updateFile eng.files eng.current s.wal }

/-- One WAL-relevant operation of a run, as claim 1 quantifies over them. -/
inductive DbOp where
  | put (k v : Bytes)
  | del (k : Bytes)
  | commit

/-- Run one operation against the engine through a fresh transaction, as
begin_transaction hands them out: the transaction takes the next id and the
counter advances. -/
def engineStep (eng : Engine) (op : DbOp) (e : WalEnv) : Engine × OperationResult :=
  let id := eng.next_transaction_id
  let eng1 := { eng with next_transaction_id := id + 1 }
  match op with
  | .put k v =>
    let a := PersistentTransaction.put id eng1.dbState k v e
    (eng1.withDB a.1, a.2)
  | .del k =>
    let a := PersistentTransaction.del id eng1.dbState k e
    (eng1.withDB a.1, a.2)
  | .commit =>
    let a := PersistentTransaction.commit id eng1.dbState e
    (eng1.withDB a.1, a.2)

/-- Run a sequence of operations, collecting each operation's result. -/
def runOps : Engine → List (DbOp × WalEnv) → Engine × List OperationResult
  | eng, [] => (eng, [])
  | eng, (op, e) :: rest =>
    let a := engineStep eng op e
    let b := runOps a.1 rest
    (b.1, a.2 :: b.2)

/-- The reference semantics claim 1 compares against: apply the PUTs and
DELETEs of the run to a map, in order; COMMITs change nothing. -/
def applyOps (m : KVStore) : List DbOp → KVStore
  | [] => m
  | .put k v :: rest => applyOps (kvInsert m k v) rest
  | .del k :: rest => applyOps (kvErase m k) rest
  | .commit :: rest => applyOps m rest

/-! ## Protocol messages (include/network/protocol.h, src/network/protocol.cpp) -/

/-- Protocol constants (protocol.h). -/
def MAX_MESSAGE_SIZE : Nat := 1048576

def MAX_KEY_SIZE : Nat := 256

def MAX_VALUE_SIZE : Nat := 1048576

/-- MessageType tags (underlying uint8_t): GET = 1, PUT = 2, DELETE = 3,
SCAN = 4, PING = 5, PONG = 6, ERROR = 7, SUCCESS = 8; kept as the raw byte, as
the static_cast in the deserializer does. -/
def MessageType.GET : Nat := 1

def MessageType.PUT : Nat := 2

def MessageType.DELETE : Nat := 3

def MessageType.SCAN : Nat := 4

def MessageType.PING : Nat := 5

def MessageType.PONG : Nat := 6

def MessageType.ERROR : Nat := 7

def MessageType.SUCCESS : Nat := 8

/-- struct Message: type, id (uint32), key_length (uint32), value_length
(uint32), key, value. -/
structure Message where
  type : Nat
  id : Nat
  key_length : Nat
  value_length : Nat
  key : Bytes
  value : Bytes
deriving DecidableEq, Repr

/-- The two failure kinds of Message::deserialize: the frame errors "too
short" and "incomplete data" (MalformedFrame) and the size error "key or
value too large" (OversizedField). -/
inductive DecodeError where
  | malformedFrame
  | oversizedField
deriving DecidableEq, Repr

instance {e a : Type} [DecidableEq e] [DecidableEq a] : DecidableEq (Except e a)
  | .error x, .error y =>
    if h : x = y then isTrue (h ▸ rfl)
    else isFalse (fun hc => h (Except.error.inj hc))
  | .error _, .ok _ => isFalse (fun hc => Except.noConfusion hc)
  | .ok _, .error _ => isFalse (fun hc => Except.noConfusion hc)
  | .ok x, .ok y =>
    if h : x = y then isTrue (h ▸ rfl)
    else isFalse (fun hc => h (Except.ok.inj hc))

/-- Message::serialize: 1 type byte, 4 id bytes LE, 4 key_length bytes LE,
4 value_length bytes LE, then key and value payloads. -/
def Message.serialize (m : Message) : Bytes :=
  [m.type % 256] ++ leBytes 4 m.id ++ leBytes 4 m.key_length ++
    leBytes 4 m.value_length ++ m.key ++ m.value

/-- Message::deserialize: reject a buffer shorter than the 13-byte header;
read the fields; reject key_length > 256 or value_length > 1 MiB as
oversized; then reject a buffer shorter than header plus payloads; otherwise
slice key and value.  The oversize check runs before the completeness check,
as in the source. -/
def Message.deserialize (data : Bytes) : Except DecodeError Message :=
  if data.length < 13 then .error .malformedFrame
  else
    let t := data.headD 0
    let id := fromLE ((data.drop 1).take 4)
    let key_length := fromLE ((data.drop 5).take 4)
    let value_length := fromLE ((data.drop 9).take 4)
    if key_length > MAX_KEY_SIZE ∨ value_length > MAX_VALUE_SIZE then
      .error .oversizedField
    else if data.length < 13 + key_length + value_length then
      .error .malformedFrame
    else
      .ok { type := t, id, key_length, value_length,
            key := (data.drop 13).take key_length,
            value := (data.drop (13 + key_length)).take value_length }

/-- The key_length field a buffer declares (read when it has the header). -/
def declaredKeyLength (data : Bytes) : Nat := fromLE ((data.drop 5).take 4)

/-- The value_length field a buffer declares (read when it has the header). -/
def declaredValueLength (data : Bytes) : Nat := fromLE ((data.drop 9).take 4)

/-- Well-formedness of an in-memory Message: fixed-width fields in machine
range, length fields equal to the payload lengths, and the protocol bounds on
key and value size. -/
def Message.wf (m : Message) : Prop :=
  m.type < 256 ∧ m.id < 2 ^ 32 ∧
  m.key_length = m.key.length ∧ m.value_length = m.value.length ∧
  m.key_length ≤ MAX_KEY_SIZE ∧ m.value_length ≤ MAX_VALUE_SIZE

instance (m : Message) : Decidable m.wf := by
  unfold Message.wf
  infer_instance

/-! ## The connection handler dispatch
(ConnectionHandler::process_request_sync, server.cpp 98-202) -/

/-- Lexicographic byte-string comparison, as std::string operator< compares. -/
def lexLt : Bytes → Bytes → Bool
  | _, [] => false
  | [], _ :: _ => true
  | a :: as, b :: bs => a < b || (a == b && lexLt as bs)

/-- The scan loop of PersistentTransaction::scan: walk the map in iteration
order, keep pairs with start_key <= key < end_key, stop once limit pairs are
collected. -/
def kvScan (m : KVStore) (start_key end_key : Bytes) (limit : Nat) : List (Bytes × Bytes) :=
  (m.filter (fun p => !lexLt p.1 start_key && lexLt p.1 end_key)).take limit

/-- One scan pair rendered as the handler renders it, byte for byte:
open brace, quote, key, quote, colon, quote, ... (no escaping). -/
def jsonPair (k v : Bytes) : Bytes :=
  [123, 34, 107, 101, 121, 34, 58, 34] ++ k ++
    [34, 44, 34, 118, 97, 108, 117, 101, 34, 58, 34] ++ v ++ [34, 125]

/-- The SCAN response payload: a bracketed, comma-separated list of pairs. -/
def scanJson (results : List (Bytes × Bytes)) : Bytes :=
  [91] ++ (List.intercalate [44] (results.map (fun p => jsonPair p.1 p.2))) ++ [93]

/-- Response string "OK". -/
def okBytes : Bytes := [79, 75]

/-- Response string "PONG". -/
def pongBytes : Bytes := [80, 79, 78, 71]

/-- Response string "Key not found". -/
def keyNotFoundBytes : Bytes :=
  [75, 101, 121, 32, 110, 111, 116, 32, 102, 111, 117, 110, 100]

/-- Response string "Failed to put value". -/
def failedPutBytes : Bytes :=
  [70, 97, 105, 108, 101, 100, 32, 116, 111, 32, 112, 117, 116, 32, 118, 97,
   108, 117, 101]

/-- Response string "Failed to delete key". -/
def failedDeleteBytes : Bytes :=
  [70, 97, 105, 108, 101, 100, 32, 116, 111, 32, 100, 101, 108, 101, 116,
   101, 32, 107, 101, 121]

/-- Response string "Failed to begin transaction". -/
def failedBeginBytes : Bytes :=
  [70, 97, 105, 108, 101, 100, 32, 116, 111, 32, 98, 101, 103, 105, 110, 32,
   116, 114, 97, 110, 115, 97, 99, 116, 105, 111, 110]

/-- Response string "Unsupported operation". -/
def unsupportedBytes : Bytes :=
  [85, 110, 115, 117, 112, 112, 111, 114, 116, 101, 100, 32, 111, 112, 101,
   114, 97, 116, 105, 111, 110]

/-- The handler's response skeleton: a default-constructed Message with the
request id copied in; every branch then sets type and value, and the handler
finally sets key_length and value_length from the payloads. -/
def mkServerResponse (id : Nat) (t : Nat) (v : Bytes) : Message :=
  { type := t, id, key_length := 0, value_length := v.length, key := [], value := v }

/-- ConnectionHandler::process_request_sync.  Each mutating request runs in a
fresh auto-commit transaction: begin_transaction (a null handle when the
engine is not initialized), the operation, and for PUT and DELETE a commit
whose result is discarded.  opEnv drives the operation's WAL append and
commitEnv the commit's. -/
def processRequestSync (eng : Engine) (req : Message) (opEnv commitEnv : WalEnv) :
    Message × Engine :=
  if req.type = MessageType.GET then
    if eng.initialized then
      let id := eng.next_transaction_id
      let eng1 := { eng with next_transaction_id := id + 1 }
      let v := PersistentTransaction.get eng1.data req.key
      if v.length ≠ 0 then (mkServerResponse req.id MessageType.SUCCESS v, eng1)
      else (mkServerResponse req.id MessageType.ERROR keyNotFoundBytes, eng1)
    else (mkServerResponse req.id MessageType.ERROR failedBeginBytes, eng)
  else if req.type = MessageType.PUT then
    if eng.initialized then
      let id := eng.next_transaction_id
      let eng1 := { eng with next_transaction_id := id + 1 }
      let a := PersistentTransaction.put id eng1.dbState req.key req.value opEnv
      if a.2 = .success then
        let c := PersistentTransaction.commit id a.1 commitEnv
        (mkServerResponse req.id MessageType.SUCCESS okBytes, eng1.withDB c.1)
      else (mkServerResponse req.id MessageType.ERROR failedPutBytes, eng1.withDB a.1)
    else (mkServerResponse req.id MessageType.ERROR failedBeginBytes, eng)
  else if req.type = MessageType.DELETE then
    if eng.initialized then
      let id := eng.next_transaction_id
      let eng1 := { eng with next_transaction_id := id + 1 }
      let a := PersistentTransaction.del id eng1.dbState req.key opEnv
      if a.2 = .success then
        let c := PersistentTransaction.commit id a.1 commitEnv
        (mkServerResponse req.id MessageType.SUCCESS okBytes, eng1.withDB c.1)
      else (mkServerResponse req.id MessageType.ERROR failedDeleteBytes, eng1.withDB a.1)
    else (mkServerResponse req.id MessageType.ERROR failedBeginBytes, eng)
  else if req.type = MessageType.SCAN then
    if eng.initialized then
      let id := eng.next_transaction_id
      let eng1 := { eng with next_transaction_id := id + 1 }
      let results := kvScan eng1.data req.key req.value 1000
      (mkServerResponse req.id MessageType.SUCCESS (scanJson results), eng1)
    else (mkServerResponse req.id MessageType.ERROR failedBeginBytes, eng)
  else if req.type = MessageType.PING then
    (mkServerResponse req.id MessageType.PONG pongBytes, eng)
  else
    (mkServerResponse req.id MessageType.ERROR unsupportedBytes, eng)

/-- Replay step following the spec's words (section 4.2, replay semantics):
a PUT record assigns map[key] = value, a DELETE record removes key (an absent
key is not an error), COMMIT and CHECKPOINT records are no-ops.  Compared
against the engine's recover_from_wal switch. -/
def specReplayStep (m : KVStore) (r : WALRecord) : KVStore :=
  if r.type = WALRecordType.PUT then kvInsert m r.key r.value
  else if r.type = WALRecordType.DELETE then kvErase m r.key
  else m

/-! ## Concrete inputs used by the witnesses and counterexamples -/

/-- A log file laid out as a list of frames followed by a trailing tail. -/
def framesThen : List WALRecord → Bytes → Bytes
  | [], t => t
  | r :: rest, t => walFrame r ++ framesThen rest t

/-- A 13-byte request buffer whose declared key_length is 257 and declared
value_length 0: oversized, and also far larger than the buffer holds. -/
def oversizedShortBuf : Bytes :=
  [1] ++ leBytes 4 0 ++ leBytes 4 257 ++ leBytes 4 0

/-- A run of two operations, every WAL write succeeding at millisecond 100:
PUT key "a" (byte 97) value "1" (byte 49), then COMMIT. -/
def demoRun : List (DbOp × WalEnv) :=
  [(DbOp.put [97] [49], ⟨true, 100, []⟩), (DbOp.commit, ⟨true, 100, []⟩)]

/-- An engine freshly initialized at millisecond 100 over an empty WAL
directory. -/
def demoEngine0 : Engine :=
  PersistentDatabase.initEngine (fun _ => []) 100

/-- The engine after running demoRun and shutting down at millisecond 150
(checkpoint label "c", byte 99). -/
def demoEngineDown : Engine :=
  PersistentDatabase.shutdown (runOps demoEngine0 demoRun).1 [99] ⟨true, 150, []⟩

/-- The engine after the restart: initialize again, at millisecond 200, over
the files the previous run left behind. -/
def demoEngineRestart : Engine :=
  PersistentDatabase.initEngine demoEngineDown.files 200

/-- An initialized engine holding key "a" (97) with the empty value and key
"b" (98) with value "2" (50), used by the GET witness. -/
def demoGetEngine : Engine :=
  { files := fun _ => [], current := 0, data := [([97], []), ([98], [50])],
    next_transaction_id := 1, initialized := true }

/-- An initialized engine with an empty map and an empty current log file. -/
def demoReqEngine : Engine :=
  { files := fun _ => [], current := 0, data := [],
    next_transaction_id := 1, initialized := true }

/-- A PUT request: id 10, key "a" (97), value "1" (49). -/
def demoPutReq : Message :=
  { type := MessageType.PUT, id := 10, key_length := 1, value_length := 1,
    key := [97], value := [49] }

/-! ## Supporting lemmas -/

theorem leBytes_length (w n : Nat) : (leBytes w n).length = w := by
  induction w generalizing n with
  | zero => rfl
  | succ w ih => simp [leBytes, ih]

theorem fromLE_leBytes (w n : Nat) (h : n < 256 ^ w) : fromLE (leBytes w n) = n := by
  induction w generalizing n with
  | zero =>
    simp [Nat.pow_zero, Nat.lt_one_iff] at h
    simp [h, leBytes, fromLE]
  | succ w ih =>
    have hdiv : n / 256 < 256 ^ w := by
      have h256 : 0 < 256 := by norm_num
      rw [Nat.div_lt_iff_lt_mul h256]
      calc n < 256 ^ (w + 1) := h
        _ = 256 ^ w * 256 := by rw [Nat.pow_succ]
    simp only [leBytes, fromLE, ih (n / 256) hdiv]
    omega

theorem WALRecord.serialize_length (r : WALRecord) :
    r.serialize.length = 25 + r.key.length + r.value.length := by
  simp [WALRecord.serialize, leBytes_length]
  omega

theorem WALRecord.deserialize_serialize (r : WALRecord) (h : r.wf) :
    WALRecord.deserialize r.serialize = .ok r := by
  obtain ⟨ht, hts, htx, hkl, hvl, hsz⟩ := h
  have hlen := r.serialize_length
  have hkl32 : r.key_length < 256 ^ 4 := by rw [hlen] at hsz; norm_num; omega
  have hvl32 : r.value_length < 256 ^ 4 := by rw [hlen] at hsz; norm_num; omega
  have hts64 : r.timestamp < 256 ^ 8 := by norm_num; omega
  have htx64 : r.transaction_id < 256 ^ 8 := by norm_num; omega
  have e0 : r.serialize = [r.type % 256] ++ (leBytes 8 r.timestamp ++
      (leBytes 8 r.transaction_id ++ (leBytes 4 r.key_length ++
      (leBytes 4 r.value_length ++ (r.key ++ r.value))))) := by
    simp [WALRecord.serialize]
  have d1 : r.serialize.drop 1 = leBytes 8 r.timestamp ++
      (leBytes 8 r.transaction_id ++ (leBytes 4 r.key_length ++
      (leBytes 4 r.value_length ++ (r.key ++ r.value)))) := by
    rw [e0]; rfl
  have d9 : r.serialize.drop 9 = leBytes 8 r.transaction_id ++
      (leBytes 4 r.key_length ++ (leBytes 4 r.value_length ++ (r.key ++ r.value))) := by
    have : r.serialize.drop 9 = (r.serialize.drop 1).drop 8 := by
      rw [List.drop_drop]
    rw [this, d1, List.drop_left' (leBytes_length 8 r.timestamp)]
  have d17 : r.serialize.drop 17 = leBytes 4 r.key_length ++
      (leBytes 4 r.value_length ++ (r.key ++ r.value)) := by
    have : r.serialize.drop 17 = (r.serialize.drop 9).drop 8 := by
      rw [List.drop_drop]
    rw [this, d9, List.drop_left' (leBytes_length 8 r.transaction_id)]
  have d21 : r.serialize.drop 21 = leBytes 4 r.value_length ++ (r.key ++ r.value) := by
    have : r.serialize.drop 21 = (r.serialize.drop 17).drop 4 := by
      rw [List.drop_drop]
    rw [this, d17, List.drop_left' (leBytes_length 4 r.key_length)]
  have d25 : r.serialize.drop 25 = r.key ++ r.value := by
    have : r.serialize.drop 25 = (r.serialize.drop 21).drop 4 := by
      rw [List.drop_drop]
    rw [this, d21, List.drop_left' (leBytes_length 4 r.value_length)]
  have hhead : r.serialize.headD 0 = r.type := by
    rw [e0]
    simp [Nat.mod_eq_of_lt ht]
  have hfts : fromLE ((r.serialize.drop 1).take 8) = r.timestamp := by
    rw [d1, List.take_left' (leBytes_length 8 r.timestamp), fromLE_leBytes 8 _ hts64]
  have hftx : fromLE ((r.serialize.drop 9).take 8) = r.transaction_id := by
    rw [d9, List.take_left' (leBytes_length 8 r.transaction_id), fromLE_leBytes 8 _ htx64]
  have hfkl : fromLE ((r.serialize.drop 17).take 4) = r.key_length := by
    rw [d17, List.take_left' (leBytes_length 4 r.key_length), fromLE_leBytes 4 _ hkl32]
  have hfvl : fromLE ((r.serialize.drop 21).take 4) = r.value_length := by
    rw [d21, List.take_left' (leBytes_length 4 r.value_length), fromLE_leBytes 4 _ hvl32]
  have hkey : (r.serialize.drop 25).take r.key_length = r.key := by
    rw [d25, hkl, List.take_left' rfl]
  have hval : (r.serialize.drop (25 + r.key_length)).take r.value_length = r.value := by
    have : r.serialize.drop (25 + r.key_length) = (r.serialize.drop 25).drop r.key_length := by
      rw [List.drop_drop, Nat.add_comm]
    rw [this, d25, hkl, List.drop_left' rfl, hvl, List.take_length]
  unfold WALRecord.deserialize
  rw [if_neg (by omega)]
  simp only [hhead, hfts, hftx, hfkl, hfvl]
  rw [if_neg (by omega), hkey, hval]

theorem readLoop_nil (fuel : Nat) : readLoop fuel [] = [] := by
  cases fuel <;> simp [readLoop]

theorem readLoop_fuel (f1 : Nat) : ∀ f2 bytes, bytes.length ≤ f1 → bytes.length ≤ f2 →
    readLoop f1 bytes = readLoop f2 bytes := by
  induction f1 with
  | zero =>
    intro f2 bytes h1 _
    have : bytes = [] := List.length_eq_zero.mp (Nat.le_zero.mp h1)
    subst this
    rw [readLoop_nil, readLoop_nil]
  | succ f1 ih =>
    intro f2 bytes h1 h2
    cases f2 with
    | zero =>
      have : bytes = [] := List.length_eq_zero.mp (Nat.le_zero.mp h2)
      subst this
      rw [readLoop_nil, readLoop_nil]
    | succ f2 =>
      by_cases h4 : bytes.length < 4
      · simp [readLoop, h4]
      · simp only [readLoop, h4, if_false]
        by_cases hbig : fromLE (bytes.take 4) > 1048576
        · simp [hbig]
        · simp only [hbig, if_false]
          by_cases hshort : (bytes.drop 4).length < fromLE (bytes.take 4)
          · have h' : bytes.length - 4 < fromLE (bytes.take 4) := by
              simpa using hshort
            simp [h']
          · simp only [hshort, if_false]
            have hrec : ((bytes.drop 4).drop (fromLE (bytes.take 4))).length ≤ f1 ∧
                ((bytes.drop 4).drop (fromLE (bytes.take 4))).length ≤ f2 := by
              simp only [List.length_drop]
              omega
            cases WALRecord.deserialize ((bytes.drop 4).take (fromLE (bytes.take 4))) with
            | ok r => simp only [ih f2 _ hrec.1 hrec.2]
            | error e => simp

theorem read_all_records_frame (r : WALRecord) (rest : Bytes) (h : r.wf) :
    read_all_records (walFrame r ++ rest) = r :: read_all_records rest := by
  have hsz : r.serialize.length ≤ 1048576 := h.2.2.2.2.2
  have hsz32 : r.serialize.length < 256 ^ 4 := by norm_num; omega
  have hlen25 : 25 ≤ r.serialize.length := by
    rw [r.serialize_length]; omega
  have hX : (walFrame r ++ rest).length = 4 + r.serialize.length + rest.length := by
    simp [walFrame, leBytes_length]
    omega
  have hassoc : walFrame r ++ rest = leBytes 4 r.serialize.length ++ (r.serialize ++ rest) := by
    simp [walFrame]
  obtain ⟨f, hf⟩ : ∃ f, (walFrame r ++ rest).length = f + 1 :=
    ⟨(walFrame r ++ rest).length - 1, by omega⟩
  have htake : (walFrame r ++ rest).take 4 = leBytes 4 r.serialize.length := by
    rw [hassoc, List.take_left' (leBytes_length 4 _)]
  have hdrop : (walFrame r ++ rest).drop 4 = r.serialize ++ rest := by
    rw [hassoc, List.drop_left' (leBytes_length 4 _)]
  rw [read_all_records, hf]
  simp only [readLoop]
  rw [if_neg (by omega), htake, fromLE_leBytes 4 _ hsz32]
  rw [if_neg (by omega), hdrop]
  rw [if_neg (by simp)]
  rw [List.take_left' rfl, WALRecord.deserialize_serialize r h, List.drop_left' rfl]
  rw [read_all_records, readLoop_fuel f rest.length rest (by omega) (by omega)]

theorem read_all_records_tornTail (t : Bytes) (h : tornTail t) :
    read_all_records t = [] := by
  rw [read_all_records]
  obtain ⟨f, hf⟩ : ∃ f, t.length = f + 1 ∨ t.length = 0 := by
    cases t with
    | nil => exact ⟨0, Or.inr rfl⟩
    | cons a l => exact ⟨l.length, Or.inl (by simp)⟩
  rcases hf with hf | hf
  · rw [hf]
    rcases h with ⟨r, d, hwf, hpre, hd⟩ | ⟨sz, junk, hbig, hsz32, ht⟩
    · by_cases h4 : t.length < 4
      · simp only [readLoop]
        rw [if_pos (by omega)]
      · have hszr : r.serialize.length ≤ 1048576 := hwf.2.2.2.2.2
        have hsz32 : r.serialize.length < 256 ^ 4 := by norm_num; omega
        have hflen : (walFrame r).length = 4 + r.serialize.length := by
          simp [walFrame, leBytes_length]
        have htlt : t.length < 4 + r.serialize.length := by
          have : t.length + d.length = (walFrame r).length := by
            rw [← hpre]; simp
          have hdpos : 0 < d.length := List.length_pos.mpr hd
          omega
        have htake : t.take 4 = leBytes 4 r.serialize.length := by
          have h1 : (t ++ d).take 4 = t.take 4 ++ d.take (4 - t.length) := by
            rw [List.take_append_eq_append_take]
          have h2 : 4 - t.length = 0 := by omega
          have h3 : (t ++ d).take 4 = leBytes 4 r.serialize.length := by
            rw [hpre, walFrame, List.take_left' (leBytes_length 4 _)]
          rw [h1, h2, List.take_zero, List.append_nil] at h3
          exact h3
        simp only [readLoop]
        rw [if_neg (by omega), htake, fromLE_leBytes 4 _ hsz32]
        rw [if_neg (by omega)]
        rw [if_pos (by simp; omega)]
    · have h4 : 4 ≤ t.length := by
        rw [ht]; simp [leBytes_length]
      have htake : t.take 4 = leBytes 4 sz := by
        rw [ht, List.take_left' (leBytes_length 4 _)]
      have hsz : sz < 256 ^ 4 := by norm_num; omega
      simp only [readLoop]
      rw [if_neg (by omega), htake, fromLE_leBytes 4 _ hsz]
      rw [if_pos (by omega)]
  · rw [hf, readLoop]

/-! ## Claim theorems -/

/-- C3 (frame round-trip): for every in-memory protocol message whose length
fields match its payloads and respect the limits key_length <= 256 and
value_length <= 1 MiB (and whose fixed-width fields are in machine range),
deserializing the serialization yields the same message: type, id,
key_length, value_length, key and value all survive. -/
theorem message_roundtrip (m : Message) (h : m.wf) :
    Message.deserialize m.serialize = .ok m := by
  obtain ⟨ht, hid, hkl, hvl, hklb, hvlb⟩ := h
  have hid32 : m.id < 256 ^ 4 := by norm_num; omega
  have hkl32 : m.key_length < 256 ^ 4 := by
    have : MAX_KEY_SIZE = 256 := rfl
    norm_num
    omega
  have hvl32 : m.value_length < 256 ^ 4 := by
    have : MAX_VALUE_SIZE = 1048576 := rfl
    norm_num
    omega
  have hlen : m.serialize.length = 13 + m.key.length + m.value.length := by
    simp [Message.serialize, leBytes_length]
    omega
  have e0 : m.serialize = [m.type % 256] ++ (leBytes 4 m.id ++
      (leBytes 4 m.key_length ++ (leBytes 4 m.value_length ++ (m.key ++ m.value)))) := by
    simp [Message.serialize]
  have d1 : m.serialize.drop 1 = leBytes 4 m.id ++
      (leBytes 4 m.key_length ++ (leBytes 4 m.value_length ++ (m.key ++ m.value))) := by
    rw [e0]; rfl
  have d5 : m.serialize.drop 5 = leBytes 4 m.key_length ++
      (leBytes 4 m.value_length ++ (m.key ++ m.value)) := by
    have : m.serialize.drop 5 = (m.serialize.drop 1).drop 4 := by
      rw [List.drop_drop]
    rw [this, d1, List.drop_left' (leBytes_length 4 m.id)]
  have d9 : m.serialize.drop 9 = leBytes 4 m.value_length ++ (m.key ++ m.value) := by
    have : m.serialize.drop 9 = (m.serialize.drop 5).drop 4 := by
      rw [List.drop_drop]
    rw [this, d5, List.drop_left' (leBytes_length 4 m.key_length)]
  have d13 : m.serialize.drop 13 = m.key ++ m.value := by
    have : m.serialize.drop 13 = (m.serialize.drop 9).drop 4 := by
      rw [List.drop_drop]
    rw [this, d9, List.drop_left' (leBytes_length 4 m.value_length)]
  have hhead : m.serialize.headD 0 = m.type := by
    rw [e0]
    simp [Nat.mod_eq_of_lt ht]
  have hfid : fromLE ((m.serialize.drop 1).take 4) = m.id := by
    rw [d1, List.take_left' (leBytes_length 4 m.id), fromLE_leBytes 4 _ hid32]
  have hfkl : fromLE ((m.serialize.drop 5).take 4) = m.key_length := by
    rw [d5, List.take_left' (leBytes_length 4 m.key_length), fromLE_leBytes 4 _ hkl32]
  have hfvl : fromLE ((m.serialize.drop 9).take 4) = m.value_length := by
    rw [d9, List.take_left' (leBytes_length 4 m.value_length), fromLE_leBytes 4 _ hvl32]
  have hkey : (m.serialize.drop 13).take m.key_length = m.key := by
    rw [d13, hkl, List.take_left' rfl]
  have hval : (m.serialize.drop (13 + m.key_length)).take m.value_length = m.value := by
    have : m.serialize.drop (13 + m.key_length) = (m.serialize.drop 13).drop m.key_length := by
      rw [List.drop_drop, Nat.add_comm]
    rw [this, d13, hkl, List.drop_left' rfl, hvl, List.take_length]
  unfold Message.deserialize
  rw [if_neg (by omega)]
  simp only [hhead, hfid, hfkl, hfvl]
  rw [if_neg (by push_neg; omega), if_neg (by omega), hkey, hval]

/-- Witness for C3: the round-trip theorem applied to a concrete PUT message
with a 2-byte key and a 1-byte value. -/
theorem message_roundtrip_witness :
    Message.wf ⟨2, 10, 2, 1, [107, 49], [118]⟩ ∧
    Message.deserialize (Message.serialize ⟨2, 10, 2, 1, [107, 49], [118]⟩) =
      .ok ⟨2, 10, 2, 1, [107, 49], [118]⟩ :=
  ⟨by decide, message_roundtrip ⟨2, 10, 2, 1, [107, 49], [118]⟩ (by decide)⟩

/-- C2 (recovery replay semantics): after a successful initialize the
in-memory map equals the left fold, over the entire sequence
read_all_records returned and in that order, of the spec's replay step: PUT
assigns map[key] = value, DELETE removes key (absent keys are not an error,
kvErase being total), COMMIT and CHECKPOINT leave the map unchanged. -/
theorem initialize_replays_full_fold (files : Nat → Bytes) (now : Nat) :
    (PersistentDatabase.initEngine files now).data =
      (read_all_records (files now)).foldl specReplayStep [] := by
  show recover_from_wal (files now) = _
  unfold recover_from_wal
  apply List.foldl_ext
  intro r _ m
  unfold applyWALRecord specReplayStep
  split_ifs <;> rfl

/-- C1 (durability of commits) fails on the code: a PUT and a COMMIT both
return SUCCESS and are durably framed into the log file wal_100.log, but
re-running initialize at a later millisecond (200) opens and replays the
fresh, empty file wal_200.log, so the rebuilt map is empty instead of the
result of applying the PUT.  Replaying those operations should give the map
holding key 97 with value 49; the restarted engine holds nothing. -/
theorem restart_loses_committed_data :
    (runOps demoEngine0 demoRun).2 = [.success, .success] ∧
    applyOps [] (demoRun.map Prod.fst) = [([97], [49])] ∧
    demoEngineRestart.data = [] ∧
    demoEngineRestart.data ≠ applyOps [] (demoRun.map Prod.fst) := by
  refine ⟨by decide, by decide, ?_, ?_⟩ <;> decide

/-- C4 (transactional put is write-ahead and atomic on error): when the WAL
append succeeds, put appends the framed PUT(k, v, txn_id) record (timestamp
filled) to the log and stores the pair, returning SUCCESS; when the append
fails, put returns SYSTEM_ERROR, the map is unchanged, and the log holds
only whatever the failed write left. -/
theorem put_write_ahead_atomic (id : Nat) (s : DBState) (k v : Bytes)
    (now : Nat) (junk : Bytes) :
    PersistentTransaction.put id s k v ⟨true, now, junk⟩ =
      ({ data := kvInsert s.data k v,
         wal := s.wal ++ walFrame (fillTimestamp (mkPutRecord id k v) now) }, .success) ∧
    PersistentTransaction.put id s k v ⟨false, now, junk⟩ =
      ({ data := s.data, wal := s.wal ++ junk }, .systemError) := by
  constructor <;> rfl

/-- C9 (transactional delete semantics): deleting an absent key returns
KEY_NOT_FOUND with every part of the state unchanged and nothing appended to
the WAL, whatever the append environment; deleting a present key appends the
framed DELETE(k, txn_id) record and removes the key when the append
succeeds, and returns SYSTEM_ERROR with the map unchanged when it fails. -/
theorem del_semantics (id : Nat) (s : DBState) (k : Bytes) (now : Nat) (junk : Bytes) :
    (kvFind s.data k = none →
      ∀ b, PersistentTransaction.del id s k ⟨b, now, junk⟩ = (s, .keyNotFound)) ∧
    (∀ v, kvFind s.data k = some v →
      PersistentTransaction.del id s k ⟨true, now, junk⟩ =
        ({ data := kvErase s.data k,
           wal := s.wal ++ walFrame (fillTimestamp (mkDeleteRecord id k) now) }, .success) ∧
      PersistentTransaction.del id s k ⟨false, now, junk⟩ =
        ({ data := s.data, wal := s.wal ++ junk }, .systemError)) := by
  constructor
  · intro h b
    simp [PersistentTransaction.del, h]
  · intro v h
    constructor <;> simp [PersistentTransaction.del, h, append_record]

/-- Witness for C9: the delete theorem applied to the singleton store holding
key 97 with value 49 — an absent key 98, then the present key 97 with a
succeeding and a failing WAL append. -/
theorem del_semantics_witness :
    kvFind [([97], [49])] [98] = none ∧
    kvFind [([97], [49])] [97] = some [49] ∧
    PersistentTransaction.del 1 ⟨[([97], [49])], []⟩ [98] ⟨true, 9, [7]⟩ =
      (⟨[([97], [49])], []⟩, .keyNotFound) ∧
    PersistentTransaction.del 1 ⟨[([97], [49])], []⟩ [97] ⟨true, 9, [7]⟩ =
      ({ data := kvErase [([97], [49])] [97],
         wal := [] ++ walFrame (fillTimestamp (mkDeleteRecord 1 [97]) 9) }, .success) ∧
    PersistentTransaction.del 1 ⟨[([97], [49])], []⟩ [97] ⟨false, 9, [7]⟩ =
      ({ data := [([97], [49])], wal := [] ++ [7] }, .systemError) :=
  ⟨by decide, by decide,
   (del_semantics 1 ⟨[([97], [49])], []⟩ [98] 9 [7]).1 (by decide) true,
   ((del_semantics 1 ⟨[([97], [49])], []⟩ [97] 9 [7]).2 [49] (by decide)).1,
   ((del_semantics 1 ⟨[([97], [49])], []⟩ [97] 9 [7]).2 [49] (by decide)).2⟩

/-- C5 as stated is false on the code: after commit() has returned SUCCESS —
a terminal state by the claim — a put on the same transaction (same handle,
id 1) is not refused with INVALID_TRANSACTION: it returns SUCCESS and
mutates the map. -/
theorem committed_txn_not_refused_cex :
    (PersistentTransaction.commit 1 ⟨[], []⟩ ⟨true, 3, []⟩).2 = .success ∧
    (PersistentTransaction.put 1 (PersistentTransaction.commit 1 ⟨[], []⟩ ⟨true, 3, []⟩).1
        [97] [49] ⟨true, 4, []⟩).2 = .success ∧
    (PersistentTransaction.put 1 (PersistentTransaction.commit 1 ⟨[], []⟩ ⟨true, 3, []⟩).1
        [97] [49] ⟨true, 4, []⟩).2 ≠ .invalidTransaction ∧
    kvFind (PersistentTransaction.put 1 (PersistentTransaction.commit 1 ⟨[], []⟩ ⟨true, 3, []⟩).1
        [97] [49] ⟨true, 4, []⟩).1.data [97] = some [49] := by
  refine ⟨by decide, by decide, by decide, by decide⟩

/-- C5 amended: PersistentTransaction carries no lifecycle state at all — no
operation is ever refused and INVALID_TRANSACTION is never returned.  put
yields SUCCESS or SYSTEM_ERROR, del yields SUCCESS, KEY_NOT_FOUND or
SYSTEM_ERROR, commit yields SUCCESS or SYSTEM_ERROR and may be repeated,
rollback changes nothing, and a put issued after a commit on the same
transaction id still succeeds whenever its WAL append succeeds. -/
theorem transaction_stateless (id id2 : Nat) (s : DBState) (k v : Bytes)
    (e e2 : WalEnv) (now : Nat) (junk : Bytes) :
    ((PersistentTransaction.put id s k v e).2 = .success ∨
      (PersistentTransaction.put id s k v e).2 = .systemError) ∧
    ((PersistentTransaction.del id s k e).2 = .success ∨
      (PersistentTransaction.del id s k e).2 = .keyNotFound ∨
      (PersistentTransaction.del id s k e).2 = .systemError) ∧
    ((PersistentTransaction.commit id s e).2 = .success ∨
      (PersistentTransaction.commit id s e).2 = .systemError) ∧
    PersistentTransaction.rollback s = s ∧
    (PersistentTransaction.put id2 (PersistentTransaction.commit id s e2).1 k v
        ⟨true, now, junk⟩).2 = .success := by
  obtain ⟨ok, n, j⟩ := e
  refine ⟨?_, ?_, ?_, rfl, rfl⟩
  · cases ok <;> simp [PersistentTransaction.put, append_record]
  · cases hf : kvFind s.data k with
    | none => simp [PersistentTransaction.del, hf]
    | some v2 => cases ok <;> simp [PersistentTransaction.del, hf, append_record]
  · cases ok <;> simp [PersistentTransaction.commit, append_record]

/-- C6 (torn-tail tolerance): a log file laid out as zero or more frames of
well-formed records followed by a torn tail — a proper prefix of a
well-formed frame, or a length prefix declaring more than 1 MiB —
deserializes to exactly those records, in append order; the total function
read_all_records models that the scan never raises. -/
theorem read_all_torn_tail_exact (rs : List WALRecord) (t : Bytes)
    (hwf : ∀ r ∈ rs, r.wf) (ht : tornTail t) :
    read_all_records (framesThen rs t) = rs := by
  induction rs with
  | nil => exact read_all_records_tornTail t ht
  | cons r rest ih =>
    have hr : r.wf := hwf r (by simp)
    have hrest : ∀ x ∈ rest, x.wf := fun x hx => hwf x (by simp [hx])
    rw [framesThen, read_all_records_frame r (framesThen rest t) hr, ih hrest]

/-- Witness for C6: one well-formed PUT frame followed by the first 10 bytes
of another frame, torn mid-record; the scan returns exactly the first
record. -/
theorem read_all_torn_tail_exact_witness :
    (∀ r ∈ [mkPutRecord 1 [97] [49]], r.wf) ∧
    tornTail ((walFrame (mkPutRecord 2 [98] [50])).take 10) ∧
    read_all_records
        (framesThen [mkPutRecord 1 [97] [49]] ((walFrame (mkPutRecord 2 [98] [50])).take 10)) =
      [mkPutRecord 1 [97] [49]] :=
  ⟨by decide,
   Or.inl ⟨mkPutRecord 2 [98] [50], (walFrame (mkPutRecord 2 [98] [50])).drop 10,
     by decide, by decide, by decide⟩,
   read_all_torn_tail_exact [mkPutRecord 1 [97] [49]] _ (by decide)
     (Or.inl ⟨mkPutRecord 2 [98] [50], (walFrame (mkPutRecord 2 [98] [50])).drop 10,
       by decide, by decide, by decide⟩)⟩

/-- C7 as stated is false on the code: this 13-byte buffer declares
key_length 257 and value_length 0, so 13 + key_length + value_length exceeds
the buffer length — the claim's MalformedFrame condition — yet decode
returns OversizedField, because the size check runs before the completeness
check. -/
theorem decode_error_priority_cex :
    Message.deserialize oversizedShortBuf = .error .oversizedField ∧
    13 ≤ oversizedShortBuf.length ∧
    oversizedShortBuf.length <
      13 + declaredKeyLength oversizedShortBuf + declaredValueLength oversizedShortBuf ∧
    DecodeError.oversizedField ≠ DecodeError.malformedFrame := by
  refine ⟨by decide, by decide, by decide, by decide⟩

/-- C7 amended: the decode checks run in order.  A buffer shorter than the
13-byte header fails with MalformedFrame; otherwise a declared key_length
over 256 or value_length over 1 MiB fails with OversizedField (even when the
buffer is also too short for the declared payloads); otherwise a buffer
shorter than header plus declared payloads fails with MalformedFrame;
otherwise decode succeeds with the decoded fields and payload slices. -/
theorem decode_characterization (data : Bytes) :
    (data.length < 13 → Message.deserialize data = .error .malformedFrame) ∧
    (13 ≤ data.length →
      (256 < declaredKeyLength data ∨ 1048576 < declaredValueLength data) →
      Message.deserialize data = .error .oversizedField) ∧
    (13 ≤ data.length → declaredKeyLength data ≤ 256 →
      declaredValueLength data ≤ 1048576 →
      data.length < 13 + declaredKeyLength data + declaredValueLength data →
      Message.deserialize data = .error .malformedFrame) ∧
    (13 ≤ data.length → declaredKeyLength data ≤ 256 →
      declaredValueLength data ≤ 1048576 →
      13 + declaredKeyLength data + declaredValueLength data ≤ data.length →
      Message.deserialize data =
        .ok { type := data.headD 0, id := fromLE ((data.drop 1).take 4),
              key_length := declaredKeyLength data,
              value_length := declaredValueLength data,
              key := (data.drop 13).take (declaredKeyLength data),
              value := (data.drop (13 + declaredKeyLength data)).take
                (declaredValueLength data) }) := by
  unfold declaredKeyLength declaredValueLength
  simp only [Message.deserialize, MAX_KEY_SIZE, MAX_VALUE_SIZE]
  refine ⟨fun h => ?_, fun h hov => ?_, fun h hkl hvl hlen => ?_,
    fun h hkl hvl hlen => ?_⟩
  · rw [if_pos h]
  · rw [if_neg (by omega), if_pos (by omega)]
  · rw [if_neg (by omega), if_neg (by omega), if_pos (by omega)]
  · rw [if_neg (by omega), if_neg (by omega), if_neg (by omega)]

/-- Witness for the amended C7: the characterization applied to four
concrete buffers — an empty buffer, a 13-byte buffer declaring an oversized
key, a 13-byte buffer declaring one payload byte it does not hold, and a
complete frame with empty payloads. -/
theorem decode_characterization_witness :
    Message.deserialize [] = .error .malformedFrame ∧
    Message.deserialize ([2] ++ leBytes 4 0 ++ leBytes 4 300 ++ leBytes 4 0) =
      .error .oversizedField ∧
    Message.deserialize ([2] ++ leBytes 4 0 ++ leBytes 4 1 ++ leBytes 4 0) =
      .error .malformedFrame ∧
    Message.deserialize ([5] ++ leBytes 4 9 ++ leBytes 4 0 ++ leBytes 4 0) =
      .ok { type := 5, id := 9, key_length := 0, value_length := 0,
            key := [], value := [] } := by
  refine ⟨(decode_characterization []).1 (by decide),
    (decode_characterization _).2.1 (by decide) (by decide),
    (decode_characterization _).2.2.1 (by decide) (by decide) (by decide) (by decide),
    ?_⟩
  have h := (decode_characterization ([5] ++ leBytes 4 9 ++ leBytes 4 0 ++ leBytes 4 0)).2.2.2
    (by decide) (by decide) (by decide) (by decide)
  rw [h]
  decide

/-- C8 (GET response and the empty-value conflation): on an initialized
engine a GET request is answered SUCCESS carrying the stored value when the
key holds a non-empty value, and ERROR with value "Key not found" both when
the key is absent and when it is stored with the empty byte string, the
handler testing only value.empty() on what the transaction's get returned. -/
theorem get_conflates_empty_and_missing (eng : Engine) (req : Message)
    (opEnv commitEnv : WalEnv) (hInit : eng.initialized = true)
    (hType : req.type = MessageType.GET) :
    (kvFind eng.data req.key = none →
      (processRequestSync eng req opEnv commitEnv).1 =
        mkServerResponse req.id MessageType.ERROR keyNotFoundBytes) ∧
    (kvFind eng.data req.key = some [] →
      (processRequestSync eng req opEnv commitEnv).1 =
        mkServerResponse req.id MessageType.ERROR keyNotFoundBytes) ∧
    (∀ v, kvFind eng.data req.key = some v → v ≠ [] →
      (processRequestSync eng req opEnv commitEnv).1 =
        mkServerResponse req.id MessageType.SUCCESS v) := by
  refine ⟨fun h => ?_, fun h => ?_, fun v h hv => ?_⟩
  · simp [processRequestSync, hType, hInit, PersistentTransaction.get, h]
  · simp [processRequestSync, hType, hInit, PersistentTransaction.get, h]
  · have hv2 : v.length ≠ 0 := fun hc => hv (List.length_eq_zero.mp hc)
    simp [processRequestSync, hType, hInit, PersistentTransaction.get, h, hv2]

/-- Witness for C8: the GET theorem applied to a concrete engine holding key
97 with the empty value and key 98 with value 50 — an absent key, the
empty-valued key, and the non-empty key. -/
theorem get_conflation_witness :
    demoGetEngine.initialized = true ∧
    kvFind demoGetEngine.data [99] = none ∧
    kvFind demoGetEngine.data [97] = some [] ∧
    kvFind demoGetEngine.data [98] = some [50] ∧
    (processRequestSync demoGetEngine ⟨MessageType.GET, 12, 1, 0, [99], []⟩
        ⟨true, 0, []⟩ ⟨true, 0, []⟩).1 =
      mkServerResponse 12 MessageType.ERROR keyNotFoundBytes ∧
    (processRequestSync demoGetEngine ⟨MessageType.GET, 13, 1, 0, [97], []⟩
        ⟨true, 0, []⟩ ⟨true, 0, []⟩).1 =
      mkServerResponse 13 MessageType.ERROR keyNotFoundBytes ∧
    (processRequestSync demoGetEngine ⟨MessageType.GET, 14, 1, 0, [98], []⟩
        ⟨true, 0, []⟩ ⟨true, 0, []⟩).1 =
      mkServerResponse 14 MessageType.SUCCESS [50] :=
  ⟨rfl, by decide, by decide, by decide,
   (get_conflates_empty_and_missing demoGetEngine _ _ _ rfl rfl).1 (by decide),
   (get_conflates_empty_and_missing demoGetEngine _ _ _ rfl rfl).2.1 (by decide),
   (get_conflates_empty_and_missing demoGetEngine _ _ _ rfl rfl).2.2 [50]
     (by decide) (by decide)⟩

/-- C10 (implicit: commit failure is not surfaced): on an initialized engine,
when the transactional put or del of a PUT or DELETE request returns
SUCCESS, the handler responds SUCCESS with value "OK" for every commit
environment — in particular one whose WAL append fails — because the value
commit() returns is discarded; such a commit does return SYSTEM_ERROR. -/
theorem commit_failure_not_surfaced (eng : Engine) (req : Message)
    (opEnv commitEnv : WalEnv) (hInit : eng.initialized = true) :
    (req.type = MessageType.PUT →
      (PersistentTransaction.put eng.next_transaction_id eng.dbState
          req.key req.value opEnv).2 = .success →
      (processRequestSync eng req opEnv commitEnv).1 =
        mkServerResponse req.id MessageType.SUCCESS okBytes) ∧
    (req.type = MessageType.DELETE →
      (PersistentTransaction.del eng.next_transaction_id eng.dbState
          req.key opEnv).2 = .success →
      (processRequestSync eng req opEnv commitEnv).1 =
        mkServerResponse req.id MessageType.SUCCESS okBytes) ∧
    (commitEnv.ok = false →
      ∀ id s, (PersistentTransaction.commit id s commitEnv).2 = .systemError) := by
  refine ⟨fun hT hOp => ?_, fun hT hOp => ?_, fun hc id s => ?_⟩
  · simp only [Engine.dbState] at hOp
    simp [processRequestSync, hT, hInit, MessageType.GET, MessageType.PUT,
      Engine.dbState, hOp]
  · simp only [Engine.dbState] at hOp
    simp [processRequestSync, hT, hInit, MessageType.GET, MessageType.PUT,
      MessageType.DELETE, Engine.dbState, hOp]
  · obtain ⟨ok, n, j⟩ := commitEnv
    cases hc
    simp [PersistentTransaction.commit, append_record]

/-- Witness for C10: a PUT request whose put succeeds, served with a failing
commit append: the response is still SUCCESS "OK", and that commit on its
own reports SYSTEM_ERROR. -/
theorem commit_failure_not_surfaced_witness :
    demoReqEngine.initialized = true ∧
    demoPutReq.type = MessageType.PUT ∧
    (PersistentTransaction.put 1 demoReqEngine.dbState [97] [49] ⟨true, 1, []⟩).2 =
      .success ∧
    (processRequestSync demoReqEngine demoPutReq ⟨true, 1, []⟩ ⟨false, 2, [3]⟩).1 =
      mkServerResponse 10 MessageType.SUCCESS okBytes ∧
    (PersistentTransaction.commit 1 ⟨[], []⟩ ⟨false, 2, [3]⟩).2 = .systemError :=
  ⟨rfl, rfl, by decide,
   (commit_failure_not_surfaced demoReqEngine demoPutReq ⟨true, 1, []⟩
     ⟨false, 2, [3]⟩ rfl).1 rfl (by decide),
   (commit_failure_not_surfaced demoReqEngine demoPutReq ⟨true, 1, []⟩
     ⟨false, 2, [3]⟩ rfl).2.2 rfl 1 ⟨[], []⟩⟩
